import Mathlib

/-!
Verification of the AllNet forwarding daemon (ad.c) against its
natural-language specification.

The daemon's dispatch logic (process_packet, process_mgmt, send_all and the
dispatch switch of main_loop) is embedded below as pure Lean functions over
packets represented as lists of bytes.  The library collaborators that live
outside ad.c (packet header layout, is_valid_message, record_packet_time,
compute_priority, social_connection, track_rate, largest_rate) are either
modelled from the spec or kept as parameters of the development, bundled in
an `Env` structure, so that every theorem about the dispatcher holds for
every admissible collaborator.
-/

namespace Allnet

/-- A wire packet: its sequence of bytes. -/
abbrev Packet := List Nat

/-- Modelled from the spec: the fixed allnet header (§3) is
version, message_type, hops, max_hops, src_nbits, dst_nbits, sig_algo,
transport (1 byte each) followed by an 8-byte source and an 8-byte
destination address, 24 bytes in all (packet.h is not under src/). -/
def ALLNET_HEADER_SIZE : Nat := 24

/-- Modelled from the spec: message_type tag for DATA packets (§3); the
numeric values are not fixed by the spec, only their distinctness matters. -/
def ALLNET_TYPE_DATA : Nat := 1

/-- Modelled from the spec: message_type tag for MGMT packets (§3). -/
def ALLNET_TYPE_MGMT : Nat := 3

/-- Modelled from the spec: the sig_algo value meaning no signature (§3). -/
def ALLNET_SIGTYPE_NONE : Nat := 0

/-- Modelled from the spec: the minimum priority sentinel (§4.4, glossary);
only its identity matters to the dispatcher. -/
def EPSILON : Nat := 1

/-- Modelled from the spec: the anonymous social-tier sentinel (glossary). -/
def UNKNOWN_SOCIAL_TIER : Nat := 100

/-- Modelled from the spec: the management sub-header is a single byte of
mgmt_type (§3, §6; mgmt.h is not under src/). -/
def MGMT_HEADER_SIZE : Nat := 1

/-- Modelled from the spec: mgmt_type tag values (§4.4); the spec fixes only
the set of recognized types, not their numeric values, so distinct small
numbers are chosen. -/
def ALLNET_MGMT_BEACON : Nat := 1

/-- Modelled from the spec: mgmt_type BEACON_REPLY. -/
def ALLNET_MGMT_BEACON_REPLY : Nat := 2

/-- Modelled from the spec: mgmt_type BEACON_GRANT. -/
def ALLNET_MGMT_BEACON_GRANT : Nat := 3

/-- Modelled from the spec: mgmt_type PEER_REQUEST. -/
def ALLNET_MGMT_PEER_REQUEST : Nat := 4

/-- Modelled from the spec: mgmt_type PEERS. -/
def ALLNET_MGMT_PEERS : Nat := 5

/-- Modelled from the spec: mgmt_type DHT. -/
def ALLNET_MGMT_DHT : Nat := 6

/-- Modelled from the spec: mgmt_type TRACE_REQ. -/
def ALLNET_MGMT_TRACE_REQ : Nat := 7

/-- Modelled from the spec: mgmt_type TRACE_REPLY. -/
def ALLNET_MGMT_TRACE_REPLY : Nat := 8

/-- Header accessor: message_type is byte 1 of the packet (§3). -/
def message_type (p : Packet) : Nat := p.getD 1 0

/-- Header accessor: hops is byte 2 of the packet (§3). -/
def hops (p : Packet) : Nat := p.getD 2 0

/-- Header accessor: max_hops is byte 3 of the packet (§3). -/
def max_hops (p : Packet) : Nat := p.getD 3 0

/-- Header accessor: src_nbits is byte 4 of the packet (§3). -/
def src_nbits (p : Packet) : Nat := p.getD 4 0

/-- Header accessor: dst_nbits is byte 5 of the packet (§3). -/
def dst_nbits (p : Packet) : Nat := p.getD 5 0

/-- Header accessor: sig_algo is byte 6 of the packet (§3). -/
def sig_algo (p : Packet) : Nat := p.getD 6 0

/-- Header accessor: transport is byte 7 of the packet (§3). -/
def transport (p : Packet) : Nat := p.getD 7 0

/-- Header accessor: the 8-byte source address, bytes 8..15 (§3). -/
def source (p : Packet) : List Nat := (p.drop 8).take 8

/-- Signature of compute_priority (lib/priority, not under src/):
is_local, size, src_nbits, dst_nbits, hops, max_hops, social tier,
rate fraction. -/
abbrev PrioFn := Bool → Nat → Nat → Nat → Nat → Nat → Nat → Nat → Nat

/-- Signature of social_connection (social.c, not under src/): the packet
buffer, the (possibly negative) length of the region to verify, the source
address, src_nbits, sig_algo, the (possibly negative) byte offset of the
signature, and the signature length; returns the social distance and
whether the signature verified. -/
abbrev SocFn := Packet → Int → List Nat → Nat → Nat → Int → Nat → Nat × Bool

/-- Signature of track_rate (social.c, not under src/): source address,
src_nbits, packet size; returns the source's rate fraction. -/
abbrev RateFn := List Nat → Nat → Nat → Nat

/-- Extra header bytes implied by a nonzero transport bitmask: the spec
(§3) says only that optional transport sub-fields follow the fixed header,
without fixing their per-bit sizes, so they are a parameter (arguments:
transport byte, message size). -/
abbrev TransportExtra := Nat → Nat → Nat

/-- The collaborators of ad.c that live in library code not under src/,
kept abstract so theorems hold for every admissible implementation. -/
structure Env where
  tExtra : TransportExtra
  cPrio : PrioFn
  soc : SocFn
  trackRate : RateFn
  largestRate : Nat

/-- Modelled from the spec: ALLNET_AFTER_HEADER (packet.h, not under src/)
gives the offset of the first byte after the fixed header and the transport
sub-fields; with no transport features the sub-fields are empty. -/
def ALLNET_AFTER_HEADER (t : TransportExtra) (tr msize : Nat) : Nat :=
  ALLNET_HEADER_SIZE + (if tr = 0 then 0 else t tr msize)

/-- The big-endian 16-bit signature length stored in the last two bytes of
the packet, decoded as the spec (§3) requires: (hi <<< 8) ||| lo. -/
def sig_size_spec (p : Packet) : Nat :=
  ((p.getD (p.length - 2) 0 &&& 255) <<< 8) ||| (p.getD (p.length - 1) 0 &&& 255)

/-- The signature length as ad.c line 125 actually computes it.  In C,
`(packet[size-2] & 0xff) << 8 + (packet[size-1] & 0xff)` parses as
hi << (8 + lo) because + binds tighter than <<. -/
def sig_size_code (p : Packet) : Nat :=
  (p.getD (p.length - 2) 0 &&& 255) <<< (8 + (p.getD (p.length - 1) 0 &&& 255))

/-- Modelled from the spec: is_valid_message (§4.2, lib code not under
src/): the buffer is at least the fixed header, the transport sub-fields
fit, and, when sig_algo is not NONE, the big-endian signature length s
satisfies header_size + s + 2 ≤ size. -/
def is_valid_message (e : Env) (p : Packet) : Prop :=
  ALLNET_HEADER_SIZE ≤ p.length ∧
  ALLNET_AFTER_HEADER e.tExtra (transport p) p.length ≤ p.length ∧
  (sig_algo p ≠ ALLNET_SIGTYPE_NONE →
    ALLNET_HEADER_SIZE + sig_size_spec p + 2 ≤ p.length)

instance (e : Env) (p : Packet) : Decidable (is_valid_message e p) := by
  unfold is_valid_message
  infer_instance

/-- Modelled from the spec: record_packet_time, the duplicate filter
(§4.3, lib code not under src/).  The filter is a list of
(fingerprint, first-seen timestamp) entries.  If no entry matches, or the
matching entry is older than 60 s, the entry is inserted or replaced with
the current time and 0 is returned; otherwise the age since first sight is
returned and the timestamp is not refreshed.  The fixed capacity bound and
its insertion-order eviction are not modelled; no claim depends on them. -/
def record_packet_time (filter : List (Packet × Nat)) (now : Nat)
    (fp : Packet) : Nat × List (Packet × Nat) :=
  match filter.find? (fun ent => ent.1 == fp) with
  | none => (0, (fp, now) :: filter)
  | some ent =>
      if 60 < now - ent.2 then
        (0, filter.map (fun x => if x.1 == fp then (fp, now) else x))
      else
        (now - ent.2, filter)

/-- The dispatcher's three-valued classification (ad.c lines 16-18). -/
inductive Scope where
  | DROP : Scope
  | LOCAL : Scope
  | ALL : Scope
deriving DecidableEq, Repr

/-- The mutable state of ad.c that dispatching reads and writes: the
duplicate filter and the static trace_received timestamp of process_mgmt
(0 meaning no suppressed trace). -/
structure AdState where
  dupFilter : List (Packet × Nat)
  traceReceived : Nat
deriving DecidableEq, Repr

/-- The outcome of one process_packet call: the classification, the packet
buffer as possibly mutated (hop increment), the resulting priority, and
the updated state. -/
structure PResult where
  scope : Scope
  packet : Packet
  priority : Nat
  state : AdState
deriving DecidableEq, Repr

/-- The fingerprint skip of ad.c line 84: the first three header bytes
(version, message_type, hops) are excluded from the duplicate
fingerprint. -/
def HEADER_SKIP : Nat := 3

/-- The saturating hop increment of ad.c lines 110-111: the hops byte
(index 2) is incremented unless it is already 255. -/
def incHops (p : Packet) : Packet :=
  if hops p < 255 then p.set 2 (hops p + 1) else p

/-- Embedding of process_mgmt (ad.c lines 20-71).  Arguments mirror the C
signature plus the explicit state: the packet, its size, locality, the
incoming priority, the static trace_received value and the current time.
Returns the classification, the resulting priority and the new
trace_received value. -/
def process_mgmt (e : Env) (message : Packet) (msize : Nat) (is_local : Bool)
    (priority tr now : Nat) : Scope × Nat × Nat :=
  let priority := if is_local then priority else EPSILON
  let hs := ALLNET_AFTER_HEADER e.tExtra (transport message) msize
  if msize < hs + MGMT_HEADER_SIZE then
    (Scope.DROP, priority, tr)
  else
    let mt := message.getD hs 0
    if mt = ALLNET_MGMT_BEACON ∨ mt = ALLNET_MGMT_BEACON_REPLY ∨
        mt = ALLNET_MGMT_BEACON_GRANT then
      (Scope.DROP, priority, tr)
    else if mt = ALLNET_MGMT_PEER_REQUEST ∨ mt = ALLNET_MGMT_PEERS ∨
        mt = ALLNET_MGMT_DHT then
      (Scope.LOCAL, priority, tr)
    else if mt = ALLNET_MGMT_TRACE_REQ then
      if is_local then
        (Scope.ALL, priority, 0)
      else if tr ≠ 0 ∧ 10 < now - tr then
        (Scope.ALL, priority, tr)
      else
        (Scope.LOCAL, priority, now)
    else if mt = ALLNET_MGMT_TRACE_REPLY then
      (Scope.ALL, priority, tr)
    else
      (Scope.ALL, EPSILON, tr)

/-- Embedding of ad.c lines 119-143: the priority computation and
signature cascade reached by non-local, non-management packets that still
have hops left.  The incoming priority is dead here, because line 120
overwrites it unconditionally with the anonymous baseline.  The source's
sig_size computation (line 125) and its fit check (line 126) are
reproduced verbatim, bugs included. -/
def signature_stage (e : Env) (q : Packet) (st2 : AdState) : PResult :=
  let prio2 := e.cPrio false q.length (src_nbits q) (dst_nbits q)
    (hops q) (max_hops q) UNKNOWN_SOCIAL_TIER e.largestRate
  if sig_algo q = ALLNET_SIGTYPE_NONE then
    ⟨Scope.ALL, q, prio2, st2⟩
  else
    let ss := sig_size_code q
    if ALLNET_HEADER_SIZE + ss + 2 ≤ q.length then
      ⟨Scope.ALL, q, prio2, st2⟩
    else
      let sr := e.soc q ((q.length : Int) - (ALLNET_HEADER_SIZE + ss + 2))
        (source q) (src_nbits q) (sig_algo q)
        ((q.length : Int) - 2 - ss) ss
      if sr.2 then
        ⟨Scope.ALL, q, e.cPrio false q.length (src_nbits q) (dst_nbits q)
          (hops q) (max_hops q) sr.1
          (e.trackRate (source q) (src_nbits q) q.length), st2⟩
      else
        ⟨Scope.ALL, q, prio2, st2⟩

/-- Embedding of process_packet (ad.c lines 76-144), with the state and
the mutated packet made explicit.  The order of the stages is exactly that
of the source: validity, duplicate filter, management dispatch, local
shortcut, hop increment, hop ceiling, and the signature stage. -/
def process_packet (e : Env) (p : Packet) (is_local : Bool) (priority : Nat)
    (st : AdState) (now : Nat) : PResult :=
  if is_valid_message e p then
    let rp := record_packet_time st.dupFilter now (p.drop HEADER_SKIP)
    let t := rp.1
    let st2 : AdState := ⟨rp.2, st.traceReceived⟩
    if 0 < t ∧ t < 60 then
      if is_local then
        ⟨Scope.LOCAL, p, priority, st2⟩
      else
        ⟨Scope.DROP, p, priority, st2⟩
    else if message_type p = ALLNET_TYPE_MGMT then
      let m := process_mgmt e p p.length is_local priority st2.traceReceived now
      ⟨m.1, p, m.2.1, ⟨st2.dupFilter, m.2.2⟩⟩
    else if is_local then
      ⟨Scope.ALL, p, priority, st2⟩
    else
      let q := incHops p
      if max_hops q ≤ hops q then
        ⟨Scope.LOCAL, q, priority, st2⟩
      else
        signature_stage e q st2
  else
    ⟨Scope.DROP, p, priority, st⟩

/-- Embedding of the dispatch switch of main_loop (ad.c lines 209-223)
together with send_all: ALL sends the packet with the computed priority to
every write pipe in index order, LOCAL sends it to pipes 0 and 1 at
priority 0, DROP sends nothing.  Each output is (pipe index, bytes,
priority). -/
def dispatch (scope : Scope) (p : Packet) (priority nwrite : Nat) :
    List (Nat × Packet × Nat) :=
  match scope with
  | Scope.ALL => (List.range nwrite).map (fun i => (i, p, priority))
  | Scope.LOCAL => [(0, p, 0), (1, p, 0)]
  | Scope.DROP => []

/-- A concrete environment instantiating the abstract collaborators, used
to exercise the dispatcher on concrete packets. -/
def env0 : Env :=
  ⟨fun _ _ => 0, fun _ _ _ _ _ _ _ _ => 0,
   fun _ _ _ _ _ _ _ => (0, true), fun _ _ _ => 0, 5⟩

/-- A well-formed signed DATA packet: version 0, DATA, hops 1, max_hops 5,
src_nbits 8, dst_nbits 8, sig_algo 1, transport 0, addresses, a 2-byte
payload, a 4-byte signature and the big-endian length bytes 0x00 0x04
(32 bytes in all; the correctly decoded signature length 4 fits, so the
packet passes validation). -/
def signedPkt : Packet :=
  [0, 1, 1, 5, 8, 8, 1, 0] ++ List.replicate 16 9 ++ [7, 7] ++
    [3, 3, 3, 3] ++ [0, 4]

/-- A well-formed unsigned DATA packet submitted locally: hops 0,
max_hops 5, sig_algo NONE, one payload byte (25 bytes). -/
def dataPkt : Packet := [0, 1, 0, 5, 0, 0, 0, 0] ++ List.replicate 16 0 ++ [17]

/-- A well-formed signed DATA packet whose last two bytes are 0x01 0x02,
i.e. a declared big-endian signature length of 258. -/
def sigLenPkt : Packet :=
  [0, 1, 0, 9, 0, 0, 1, 0] ++ List.replicate 16 1 ++ [1, 2]

/-- A well-formed unsigned DATA packet used to exercise the duplicate
filter: hops 2, max_hops 9 (26 bytes). -/
def dupPkt : Packet := [0, 1, 2, 9, 0, 0, 0, 0] ++ List.replicate 16 4 ++ [8, 8]

/-- A well-formed unsigned DATA packet one hop from its ceiling: hops 4,
max_hops 5 (25 bytes). -/
def hopPkt : Packet := [0, 1, 4, 5, 0, 0, 0, 0] ++ List.replicate 16 1 ++ [2]

/-- A well-formed unsigned DATA packet arriving on a wire pipe: hops 2,
max_hops 9 (25 bytes). -/
def remotePkt : Packet := [0, 1, 2, 9, 0, 0, 0, 0] ++ List.replicate 16 3 ++ [6]

/-- A well-formed MGMT packet with the unrecognized mgmt_type 250
(25 bytes, transport 0, so the sub-header starts at byte 24). -/
def unkMgmtPkt : Packet :=
  [0, 3, 0, 5, 0, 0, 0, 0] ++ List.replicate 16 2 ++ [250]

/-- A well-formed MGMT TRACE_REPLY packet (25 bytes). -/
def replyPkt : Packet := [0, 3, 0, 5, 0, 0, 0, 0] ++ List.replicate 16 3 ++ [8]

/-- A well-formed MGMT BEACON packet (25 bytes). -/
def beaconPkt : Packet := [0, 3, 0, 5, 0, 0, 0, 0] ++ List.replicate 16 5 ++ [1]

/-- A well-formed MGMT BEACON_REPLY packet (25 bytes). -/
def beaconPkt2 : Packet := [0, 3, 0, 5, 0, 0, 0, 0] ++ List.replicate 16 6 ++ [2]

/-- A well-formed MGMT TRACE_REQ packet (25 bytes). -/
def traceDupPkt : Packet :=
  [0, 3, 0, 5, 0, 0, 0, 0] ++ List.replicate 16 7 ++ [7]

/-- A second well-formed MGMT TRACE_REQ packet (25 bytes). -/
def tracePkt2 : Packet := [0, 3, 0, 5, 0, 0, 0, 0] ++ List.replicate 16 8 ++ [7]

/-- A well-formed MGMT packet that is too short for the management
sub-header: exactly the 24 fixed header bytes, no mgmt_type byte. -/
def shortMgmt : Packet := [0, 3, 0, 5, 0, 0, 0, 0] ++ List.replicate 16 9

/-- A third well-formed MGMT TRACE_REQ packet (25 bytes). -/
def tracePkt3 : Packet := [0, 3, 0, 5, 0, 0, 0, 0] ++ List.replicate 16 10 ++ [7]

/-- A fourth well-formed MGMT TRACE_REQ packet (25 bytes). -/
def tracePkt4 : Packet := [0, 3, 0, 5, 0, 0, 0, 0] ++ List.replicate 16 11 ++ [7]

/-- A fifth well-formed MGMT TRACE_REQ packet (25 bytes). -/
def tracePkt5 : Packet := [0, 3, 0, 5, 0, 0, 0, 0] ++ List.replicate 16 12 ++ [7]

/-- The byte offset of the management sub-header of packet p, as
process_mgmt computes it (ad.c line 32). -/
def mgmt_offset (e : Env) (p : Packet) : Nat :=
  ALLNET_AFTER_HEADER e.tExtra (transport p) p.length

/-- The mgmt_type byte of packet p (ad.c lines 35-37). -/
def mgmt_byte (e : Env) (p : Packet) : Nat := p.getD (mgmt_offset e p) 0

/-- The management sub-header of p fits inside the buffer, so its
mgmt_type byte exists (the size check of ad.c line 33 passes). -/
def mgmt_readable (e : Env) (p : Packet) : Prop :=
  mgmt_offset e p + MGMT_HEADER_SIZE ≤ p.length

/-- The mgmt_type values recognized by the classifier's switch
(ad.c lines 37-65, the compiled cases only). -/
def mgmt_known (e : Env) (p : Packet) : Prop :=
  mgmt_byte e p = ALLNET_MGMT_BEACON ∨
  mgmt_byte e p = ALLNET_MGMT_BEACON_REPLY ∨
  mgmt_byte e p = ALLNET_MGMT_BEACON_GRANT ∨
  mgmt_byte e p = ALLNET_MGMT_PEER_REQUEST ∨
  mgmt_byte e p = ALLNET_MGMT_PEERS ∨
  mgmt_byte e p = ALLNET_MGMT_DHT ∨
  mgmt_byte e p = ALLNET_MGMT_TRACE_REQ ∨
  mgmt_byte e p = ALLNET_MGMT_TRACE_REPLY

instance (e : Env) (p : Packet) : Decidable (mgmt_readable e p) := by
  unfold mgmt_readable
  infer_instance

instance (e : Env) (p : Packet) : Decidable (mgmt_known e p) := by
  unfold mgmt_known
  infer_instance

theorem signature_stage_scope (e : Env) (q : Packet) (st2 : AdState) :
    (signature_stage e q st2).scope = Scope.ALL := by
  unfold signature_stage
  dsimp only
  split
  · rfl
  · split
    · rfl
    · split <;> rfl

theorem signature_stage_packet (e : Env) (q : Packet) (st2 : AdState) :
    (signature_stage e q st2).packet = q := by
  unfold signature_stage
  dsimp only
  split
  · rfl
  · split
    · rfl
    · split <;> rfl

theorem process_packet_invalid (e : Env) (p : Packet) (b : Bool)
    (pr : Nat) (st : AdState) (now : Nat) (hv : ¬ is_valid_message e p) :
    process_packet e p b pr st now = ⟨Scope.DROP, p, pr, st⟩ := by
  unfold process_packet
  rw [if_neg hv]

theorem process_packet_dup (e : Env) (p : Packet) (b : Bool) (pr : Nat)
    (st : AdState) (now t : Nat) (f2 : List (Packet × Nat))
    (hv : is_valid_message e p)
    (hr : record_packet_time st.dupFilter now (p.drop HEADER_SKIP) = (t, f2))
    (h0 : 0 < t) (h60 : t < 60) :
    process_packet e p b pr st now =
      if b then ⟨Scope.LOCAL, p, pr, ⟨f2, st.traceReceived⟩⟩
      else ⟨Scope.DROP, p, pr, ⟨f2, st.traceReceived⟩⟩ := by
  simp only [process_packet, hr, if_pos hv, h0, h60, and_self, if_true]

theorem process_packet_mgmt (e : Env) (p : Packet) (b : Bool) (pr : Nat)
    (st : AdState) (now t : Nat) (f2 : List (Packet × Nat))
    (hv : is_valid_message e p)
    (hr : record_packet_time st.dupFilter now (p.drop HEADER_SKIP) = (t, f2))
    (hnd : ¬ (0 < t ∧ t < 60))
    (hm : message_type p = ALLNET_TYPE_MGMT) :
    process_packet e p b pr st now =
      ⟨(process_mgmt e p p.length b pr st.traceReceived now).1, p,
       (process_mgmt e p p.length b pr st.traceReceived now).2.1,
       ⟨f2, (process_mgmt e p p.length b pr st.traceReceived now).2.2⟩⟩ := by
  simp only [process_packet, hr, if_pos hv, hnd, if_false, hm, if_true,
    if_pos rfl]

theorem process_packet_local_data (e : Env) (p : Packet) (pr : Nat)
    (st : AdState) (now t : Nat) (f2 : List (Packet × Nat))
    (hv : is_valid_message e p)
    (hr : record_packet_time st.dupFilter now (p.drop HEADER_SKIP) = (t, f2))
    (hnd : ¬ (0 < t ∧ t < 60))
    (hm : message_type p ≠ ALLNET_TYPE_MGMT) :
    process_packet e p true pr st now =
      ⟨Scope.ALL, p, pr, ⟨f2, st.traceReceived⟩⟩ := by
  simp only [process_packet, hr, if_pos hv, hnd, if_false, hm, if_true]

theorem process_packet_remote_data (e : Env) (p : Packet) (pr : Nat)
    (st : AdState) (now t : Nat) (f2 : List (Packet × Nat))
    (hv : is_valid_message e p)
    (hr : record_packet_time st.dupFilter now (p.drop HEADER_SKIP) = (t, f2))
    (hnd : ¬ (0 < t ∧ t < 60))
    (hm : message_type p ≠ ALLNET_TYPE_MGMT) :
    process_packet e p false pr st now =
      if max_hops (incHops p) ≤ hops (incHops p) then
        ⟨Scope.LOCAL, incHops p, pr, ⟨f2, st.traceReceived⟩⟩
      else
        signature_stage e (incHops p) ⟨f2, st.traceReceived⟩ := by
  simp only [process_packet, hr, if_pos hv, hnd, if_false, hm, if_true]
  rw [if_neg Bool.false_ne_true]

/-- Claim C1: for every environment — in particular for every
social_connection implementation, including any under which the embedded
signature verifies against a socially-close stored key — process_packet on
the well-formed signed DATA packet returns ALL with exactly the
anonymous-baseline priority cPrio(..., UNKNOWN_SOCIAL_TIER, largest_rate):
the signature-verification stage is never consulted, so the priority is
not recomputed from the real social distance and cannot be strictly
greater than the anonymous baseline.  This refutes the claim on the code
(the precedence bug at ad.c:125 makes sig_size = 0 <<< 12 = 0 and the
inverted fit check at ad.c:126 then returns ALL before verification). -/
theorem c1_signed_packet_anonymous_priority (e : Env) :
    process_packet e signedPkt false 7 ⟨[], 9⟩ 1000 =
      ⟨Scope.ALL, incHops signedPkt,
       e.cPrio false 32 8 8 2 5 UNKNOWN_SOCIAL_TIER e.largestRate,
       ⟨[(signedPkt.drop HEADER_SKIP, 1000)], 9⟩⟩ := rfl

/-- Claim C2: the code's signature-length computation (ad.c:125) does not
decode the big-endian 16-bit value.  On a packet whose last two bytes are
0x01 0x02 the claimed decode ((hi <<< 8) ||| lo) gives 258, while the
code computes hi <<< (8 + lo) = 1024, because in C the + binds tighter
than the <<. -/
theorem c2_sig_size_precedence :
    sig_size_code sigLenPkt = 1024 ∧ sig_size_spec sigLenPkt = 258 ∧
      sig_size_code sigLenPkt ≠ sig_size_spec sigLenPkt := by
  decide

theorem dispatch_mem_packet (s : Scope) (p : Packet) (pr n : Nat)
    (o : Nat × Packet × Nat) (ho : o ∈ dispatch s p pr n) : o.2.1 = p := by
  cases s
  · simp only [dispatch, List.not_mem_nil] at ho
  · simp only [dispatch, List.mem_cons, List.not_mem_nil, or_false] at ho
    rcases ho with rfl | rfl <;> rfl
  · simp only [dispatch, List.mem_map] at ho
    rcases ho with ⟨i, hi, rfl⟩
    rfl

theorem incHops_length (p : Packet) : (incHops p).length = p.length := by
  unfold incHops
  split
  · exact List.length_set p 2 _
  · rfl

theorem incHops_getD_ne (p : Packet) (i : Nat) (hi : i ≠ 2) :
    (incHops p).getD i 0 = p.getD i 0 := by
  unfold incHops
  split
  · simp only [List.getD_eq_getElem?_getD, List.getElem?_set_ne (Ne.symm hi)]
  · rfl

theorem incHops_hops (p : Packet) (h2 : 2 < p.length) :
    hops (incHops p) = if hops p < 255 then hops p + 1 else hops p := by
  unfold incHops hops
  by_cases h : p.getD 2 0 < 255
  · rw [if_pos h, if_pos h]
    simp only [List.getD_eq_getElem?_getD, List.getElem?_set_self h2,
      Option.getD_some]
  · rw [if_neg h, if_neg h]

/-- Claim C3: a valid packet whose fingerprint (the bytes after the
3-byte skip that hides the hop count) is recorded with age strictly
between 0 and 60 seconds is dropped with no output when it arrives on a
non-local pipe, and is delivered only to pipes 0 and 1 when it arrives on
a local pipe; and a duplicate whose recorded age is exactly 60 seconds is
not suppressed (for a non-management packet the classification is never
DROP). -/
theorem c3_duplicate_suppression (e : Env) (p : Packet) (pr now : Nat)
    (st : AdState) (t : Nat) (f2 : List (Packet × Nat)) (nwrite : Nat)
    (hv : is_valid_message e p)
    (hr : record_packet_time st.dupFilter now (p.drop HEADER_SKIP) = (t, f2)) :
    (0 < t → t < 60 →
      process_packet e p false pr st now =
        ⟨Scope.DROP, p, pr, ⟨f2, st.traceReceived⟩⟩ ∧
      dispatch Scope.DROP p pr nwrite = [] ∧
      process_packet e p true pr st now =
        ⟨Scope.LOCAL, p, pr, ⟨f2, st.traceReceived⟩⟩ ∧
      dispatch Scope.LOCAL p 0 nwrite = [(0, p, 0), (1, p, 0)]) ∧
    (t = 60 → message_type p ≠ ALLNET_TYPE_MGMT →
      (process_packet e p false pr st now).scope ≠ Scope.DROP) := by
  constructor
  · intro h0 h60
    refine ⟨?_, rfl, ?_, rfl⟩
    · rw [process_packet_dup e p false pr st now t f2 hv hr h0 h60,
        if_neg Bool.false_ne_true]
    · rw [process_packet_dup e p true pr st now t f2 hv hr h0 h60, if_pos rfl]
  · intro h60 hm
    subst h60
    rw [process_packet_remote_data e p pr st now 60 f2 hv hr (by omega) hm]
    split
    · simp
    · rw [signature_stage_scope]
      simp

theorem c3_duplicate_suppression_w :
    process_packet env0 dupPkt false 50
        ⟨[(dupPkt.drop HEADER_SKIP, 70)], 0⟩ 100 =
      ⟨Scope.DROP, dupPkt, 50, ⟨[(dupPkt.drop HEADER_SKIP, 70)], 0⟩⟩ ∧
    process_packet env0 dupPkt true 50
        ⟨[(dupPkt.drop HEADER_SKIP, 70)], 0⟩ 100 =
      ⟨Scope.LOCAL, dupPkt, 50, ⟨[(dupPkt.drop HEADER_SKIP, 70)], 0⟩⟩ := by
  have h := (c3_duplicate_suppression env0 dupPkt 50 100
    ⟨[(dupPkt.drop HEADER_SKIP, 70)], 0⟩ 30 [(dupPkt.drop HEADER_SKIP, 70)] 3
    (by decide) (by decide)).1 (by decide) (by decide)
  exact ⟨h.1, h.2.2.1⟩

/-- Claim C4: a valid, non-duplicate, non-management packet arriving on a
non-local pipe whose hop count after the saturating increment has reached
its max_hops is classified LOCAL: it is sent only to pipes 0 and 1 at
priority 0, and no output pipe of index 2 or more receives anything. -/
theorem c4_hop_exhaustion_local (e : Env) (p : Packet) (pr : Nat)
    (st : AdState) (now t : Nat) (f2 : List (Packet × Nat)) (nwrite : Nat)
    (hv : is_valid_message e p)
    (hr : record_packet_time st.dupFilter now (p.drop HEADER_SKIP) = (t, f2))
    (hnd : ¬ (0 < t ∧ t < 60))
    (hm : message_type p ≠ ALLNET_TYPE_MGMT)
    (hh : max_hops (incHops p) ≤ hops (incHops p)) :
    process_packet e p false pr st now =
      ⟨Scope.LOCAL, incHops p, pr, ⟨f2, st.traceReceived⟩⟩ ∧
    dispatch Scope.LOCAL (incHops p) 0 nwrite =
      [(0, incHops p, 0), (1, incHops p, 0)] ∧
    ∀ o ∈ dispatch Scope.LOCAL (incHops p) 0 nwrite, o.1 < 2 := by
  refine ⟨?_, rfl, ?_⟩
  · rw [process_packet_remote_data e p pr st now t f2 hv hr hnd hm, if_pos hh]
  · intro o ho
    simp only [dispatch, List.mem_cons, List.mem_singleton,
      List.not_mem_nil, or_false] at ho
    rcases ho with rfl | rfl <;> simp

theorem c4_hop_exhaustion_local_w :
    process_packet env0 hopPkt false 9 ⟨[], 0⟩ 40 =
      ⟨Scope.LOCAL, incHops hopPkt, 9,
       ⟨[(hopPkt.drop HEADER_SKIP, 40)], 0⟩⟩ ∧
    hops (incHops hopPkt) = 5 ∧ max_hops (incHops hopPkt) = 5 := by
  have h := c4_hop_exhaustion_local env0 hopPkt 9 ⟨[], 0⟩ 40 0
    [(hopPkt.drop HEADER_SKIP, 40)] 3
    (by decide) (by decide) (by decide) (by decide) (by decide)
  exact ⟨h.1, by decide, by decide⟩

/-- Claim C5 counterexample: the claim quantifies over every forwarded
packet, but a valid DATA packet submitted on a local pipe is forwarded to
every output pipe with its bytes — the hops byte included — unchanged:
the input hops byte is 0 (not 255) and the forwarded copy still carries
hops 0, not 1 (ad.c line 107 returns before the increment at line 111). -/
theorem c5_counterexample_local_hops :
    (process_packet env0 dataPkt true 100 ⟨[], 0⟩ 50).packet = dataPkt ∧
    (process_packet env0 dataPkt true 100 ⟨[], 0⟩ 50).scope = Scope.ALL ∧
    (2, dataPkt, 100) ∈ dispatch Scope.ALL dataPkt 100 3 ∧
    hops dataPkt = 0 ∧ (0 : Nat) ≠ 0 + 1 := by
  decide

/-- Claim C5 as amended: for every valid, non-duplicate, non-management
packet arriving on a non-local pipe, every copy handed to an output pipe
is byte-for-byte the input packet except for the hops byte (index 2),
which is incremented with saturation at 255 (packets submitted locally,
management packets and locally delivered duplicates are forwarded with
the hops byte unchanged, so the claim's unrestricted quantification
fails). -/
theorem c5_hops_increment_remote (e : Env) (p : Packet) (pr : Nat)
    (st : AdState) (now t : Nat) (f2 : List (Packet × Nat)) (nwrite : Nat)
    (hv : is_valid_message e p)
    (hr : record_packet_time st.dupFilter now (p.drop HEADER_SKIP) = (t, f2))
    (hnd : ¬ (0 < t ∧ t < 60))
    (hm : message_type p ≠ ALLNET_TYPE_MGMT) :
    (process_packet e p false pr st now).packet = incHops p ∧
    (incHops p).length = p.length ∧
    (∀ i, i ≠ 2 → (incHops p).getD i 0 = p.getD i 0) ∧
    hops (incHops p) = (if hops p < 255 then hops p + 1 else hops p) ∧
    ∀ o ∈ dispatch (process_packet e p false pr st now).scope
        (process_packet e p false pr st now).packet
        (process_packet e p false pr st now).priority nwrite,
      o.2.1 = incHops p := by
  have hp := process_packet_remote_data e p pr st now t f2 hv hr hnd hm
  have h2 : 2 < p.length := by
    rcases hv with ⟨h24, _⟩
    have : ALLNET_HEADER_SIZE = 24 := rfl
    omega
  have hpk : (process_packet e p false pr st now).packet = incHops p := by
    rw [hp]
    split
    · rfl
    · rw [signature_stage_packet]
  refine ⟨hpk, incHops_length p, fun i hi => incHops_getD_ne p i hi,
    incHops_hops p h2, ?_⟩
  intro o ho
  rw [dispatch_mem_packet _ _ _ _ o ho, hpk]

theorem c5_hops_increment_remote_w :
    (process_packet env0 remotePkt false 3 ⟨[], 0⟩ 10).packet =
      incHops remotePkt ∧
    hops remotePkt = 2 ∧ hops (incHops remotePkt) = 3 := by
  have h := c5_hops_increment_remote env0 remotePkt 3 ⟨[], 0⟩ 10 0
    [(remotePkt.drop HEADER_SKIP, 10)] 3
    (by decide) (by decide) (by decide) (by decide)
  exact ⟨h.1, by decide, by decide⟩

theorem process_mgmt_local_eq (e : Env) (p : Packet) (msize pr tr now : Nat) :
    process_mgmt e p msize true pr tr now =
      (if msize < ALLNET_AFTER_HEADER e.tExtra (transport p) msize +
          MGMT_HEADER_SIZE then
        (Scope.DROP, pr, tr)
      else if p.getD (ALLNET_AFTER_HEADER e.tExtra (transport p) msize) 0 =
            ALLNET_MGMT_BEACON ∨
          p.getD (ALLNET_AFTER_HEADER e.tExtra (transport p) msize) 0 =
            ALLNET_MGMT_BEACON_REPLY ∨
          p.getD (ALLNET_AFTER_HEADER e.tExtra (transport p) msize) 0 =
            ALLNET_MGMT_BEACON_GRANT then
        (Scope.DROP, pr, tr)
      else if p.getD (ALLNET_AFTER_HEADER e.tExtra (transport p) msize) 0 =
            ALLNET_MGMT_PEER_REQUEST ∨
          p.getD (ALLNET_AFTER_HEADER e.tExtra (transport p) msize) 0 =
            ALLNET_MGMT_PEERS ∨
          p.getD (ALLNET_AFTER_HEADER e.tExtra (transport p) msize) 0 =
            ALLNET_MGMT_DHT then
        (Scope.LOCAL, pr, tr)
      else if p.getD (ALLNET_AFTER_HEADER e.tExtra (transport p) msize) 0 =
            ALLNET_MGMT_TRACE_REQ then
        (Scope.ALL, pr, 0)
      else if p.getD (ALLNET_AFTER_HEADER e.tExtra (transport p) msize) 0 =
            ALLNET_MGMT_TRACE_REPLY then
        (Scope.ALL, pr, tr)
      else
        (Scope.ALL, EPSILON, tr)) := rfl

theorem process_mgmt_beacon (e : Env) (p : Packet) (msize : Nat) (b : Bool)
    (pr tr now : Nat)
    (hsz : ALLNET_AFTER_HEADER e.tExtra (transport p) msize +
      MGMT_HEADER_SIZE ≤ msize)
    (hbm : p.getD (ALLNET_AFTER_HEADER e.tExtra (transport p) msize) 0 =
        ALLNET_MGMT_BEACON ∨
      p.getD (ALLNET_AFTER_HEADER e.tExtra (transport p) msize) 0 =
        ALLNET_MGMT_BEACON_REPLY ∨
      p.getD (ALLNET_AFTER_HEADER e.tExtra (transport p) msize) 0 =
        ALLNET_MGMT_BEACON_GRANT) :
    process_mgmt e p msize b pr tr now =
      (Scope.DROP, if b then pr else EPSILON, tr) := by
  unfold process_mgmt
  dsimp only
  rw [if_neg (by omega), if_pos hbm]

theorem process_mgmt_trace_req_local (e : Env) (p : Packet)
    (msize pr tr now : Nat)
    (hsz : ALLNET_AFTER_HEADER e.tExtra (transport p) msize +
      MGMT_HEADER_SIZE ≤ msize)
    (hbm : p.getD (ALLNET_AFTER_HEADER e.tExtra (transport p) msize) 0 =
      ALLNET_MGMT_TRACE_REQ) :
    process_mgmt e p msize true pr tr now = (Scope.ALL, pr, 0) := by
  unfold process_mgmt
  dsimp only
  rw [if_neg (by omega), hbm]
  rw [if_neg (by decide), if_neg (by decide), if_pos rfl]
  simp

theorem process_mgmt_trace_req_remote (e : Env) (p : Packet)
    (msize pr tr now : Nat)
    (hsz : ALLNET_AFTER_HEADER e.tExtra (transport p) msize +
      MGMT_HEADER_SIZE ≤ msize)
    (hbm : p.getD (ALLNET_AFTER_HEADER e.tExtra (transport p) msize) 0 =
      ALLNET_MGMT_TRACE_REQ) :
    process_mgmt e p msize false pr tr now =
      if tr ≠ 0 ∧ 10 < now - tr then (Scope.ALL, EPSILON, tr)
      else (Scope.LOCAL, EPSILON, now) := by
  unfold process_mgmt
  dsimp only
  rw [if_neg (by omega), hbm]
  rw [if_neg (by decide), if_neg (by decide), if_pos rfl]
  simp

/-- Claim C6 counterexample: a valid MGMT packet with the unrecognized
mgmt_type 250 submitted on a local pipe with priority 100 is forwarded to
every pipe, but at priority EPSILON, not at the submitter's priority: the
classifier's default case (ad.c line 68) overwrites the priority even for
local packets. -/
theorem c6_counterexample_unknown_mgmt_priority :
    process_packet env0 unkMgmtPkt true 100 ⟨[], 4⟩ 50 =
      ⟨Scope.ALL, unkMgmtPkt, EPSILON,
       ⟨[(unkMgmtPkt.drop HEADER_SKIP, 50)], 4⟩⟩ ∧
    (2, unkMgmtPkt, EPSILON) ∈ dispatch Scope.ALL unkMgmtPkt EPSILON 3 ∧
    EPSILON ≠ 100 := by
  decide

/-- Claim C6 as amended: a packet arriving on a local pipe that is
forwarded with ALL scope keeps the submitter's priority unless it is a
MGMT packet with an unrecognized mgmt_type, which is forwarded at EPSILON
instead; and a local packet classified LOCAL (a recent duplicate, or
PEER_REQUEST, PEERS or DHT) is delivered to pipes 0 and 1 at the fixed
priority 0, not at the submitter's priority. -/
theorem c6_local_priority (e : Env) (p : Packet) (pr : Nat) (st : AdState)
    (now nwrite : Nat) :
    ((process_packet e p true pr st now).scope = Scope.ALL →
      (message_type p ≠ ALLNET_TYPE_MGMT ∨ mgmt_known e p) →
      (process_packet e p true pr st now).priority = pr) ∧
    ((process_packet e p true pr st now).scope = Scope.ALL →
      message_type p = ALLNET_TYPE_MGMT → ¬ mgmt_known e p →
      (process_packet e p true pr st now).priority = EPSILON) ∧
    ((process_packet e p true pr st now).scope = Scope.LOCAL →
      dispatch (process_packet e p true pr st now).scope
        (process_packet e p true pr st now).packet
        (process_packet e p true pr st now).priority nwrite =
      [(0, (process_packet e p true pr st now).packet, 0),
       (1, (process_packet e p true pr st now).packet, 0)]) := by
  by_cases hv : is_valid_message e p
  · obtain ⟨t, f2, hr⟩ :
        ∃ t f2, record_packet_time st.dupFilter now (p.drop HEADER_SKIP) =
          (t, f2) := ⟨_, _, rfl⟩
    by_cases hd : 0 < t ∧ t < 60
    · rw [process_packet_dup e p true pr st now t f2 hv hr hd.1 hd.2,
        if_pos rfl]
      exact ⟨fun h => absurd h (by simp), fun h => absurd h (by simp),
        fun _ => rfl⟩
    · by_cases hm : message_type p = ALLNET_TYPE_MGMT
      · rw [process_packet_mgmt e p true pr st now t f2 hv hr hd hm,
          process_mgmt_local_eq]
        unfold mgmt_known mgmt_byte mgmt_offset
        split
        · exact ⟨fun h => absurd h (by simp), fun h => absurd h (by simp),
            fun h => absurd h (by simp)⟩
        · split
          · exact ⟨fun h => absurd h (by simp), fun h => absurd h (by simp),
              fun h => absurd h (by simp)⟩
          · split
            · exact ⟨fun h => absurd h (by simp), fun h => absurd h (by simp),
                fun _ => rfl⟩
            · split
              · rename_i hmt
                exact ⟨fun _ _ => rfl, fun _ _ hk => absurd (by tauto) hk,
                  fun h => absurd h (by simp)⟩
              · split
                · rename_i hmt
                  exact ⟨fun _ _ => rfl, fun _ _ hk => absurd (by tauto) hk,
                    fun h => absurd h (by simp)⟩
                · rename_i h1 h2 h3 h4
                  refine ⟨fun _ hk => ?_, fun _ _ _ => rfl,
                    fun h => absurd h (by simp)⟩
                  rcases hk with hk | hk
                  · exact absurd hm hk
                  · exact absurd hk (by tauto)
      · rw [process_packet_local_data e p pr st now t f2 hv hr hd hm]
        exact ⟨fun _ _ => rfl, fun _ h => absurd h hm, fun h => absurd h (by simp)⟩
  · rw [process_packet_invalid e p true pr st now hv]
    exact ⟨fun h => absurd h (by simp), fun h => absurd h (by simp),
      fun h => absurd h (by simp)⟩

theorem c6_local_priority_w :
    (process_packet env0 replyPkt true 55 ⟨[], 2⟩ 90).scope = Scope.ALL ∧
    (process_packet env0 replyPkt true 55 ⟨[], 2⟩ 90).priority = 55 := by
  exact ⟨by decide,
    (c6_local_priority env0 replyPkt 55 ⟨[], 2⟩ 90 3).1 (by decide)
      (Or.inr (by decide))⟩

/-- Claim C7 counterexample: a valid MGMT BEACON packet arriving on a
local pipe while its fingerprint is recorded as first seen 5 seconds ago
is not dropped: the duplicate check (ad.c lines 88-90) runs before the
management classifier and returns LOCAL, so the beacon is delivered to
pipes 0 and 1. -/
theorem c7_counterexample_local_duplicate_beacon :
    message_type beaconPkt = ALLNET_TYPE_MGMT ∧
    mgmt_byte env0 beaconPkt = ALLNET_MGMT_BEACON ∧
    process_packet env0 beaconPkt true 9
        ⟨[(beaconPkt.drop HEADER_SKIP, 95)], 0⟩ 100 =
      ⟨Scope.LOCAL, beaconPkt, 9, ⟨[(beaconPkt.drop HEADER_SKIP, 95)], 0⟩⟩ ∧
    dispatch Scope.LOCAL beaconPkt 9 3 =
      [(0, beaconPkt, 0), (1, beaconPkt, 0)] ∧
    dispatch Scope.LOCAL beaconPkt 9 3 ≠ [] := by
  decide

/-- Claim C7 as amended: for every MGMT packet whose mgmt_type is BEACON,
BEACON_REPLY or BEACON_GRANT, the management classifier returns DROP
regardless of the arrival pipe, and the packet produces no output on any
pipe — except when it arrives on a local pipe while its fingerprint is
recorded with age in (0, 60), in which case the duplicate path delivers
it to pipes 0 and 1 before the classifier runs. -/
theorem c7_beacon_drop (e : Env) (p : Packet) (b : Bool) (pr : Nat)
    (st : AdState) (now t : Nat) (f2 : List (Packet × Nat)) (nwrite : Nat)
    (hr : record_packet_time st.dupFilter now (p.drop HEADER_SKIP) = (t, f2))
    (hm : message_type p = ALLNET_TYPE_MGMT)
    (hread : mgmt_readable e p)
    (hb : mgmt_byte e p = ALLNET_MGMT_BEACON ∨
      mgmt_byte e p = ALLNET_MGMT_BEACON_REPLY ∨
      mgmt_byte e p = ALLNET_MGMT_BEACON_GRANT)
    (hnd : ¬ (b = true ∧ 0 < t ∧ t < 60)) :
    (process_mgmt e p p.length b pr st.traceReceived now).1 = Scope.DROP ∧
    (process_packet e p b pr st now).scope = Scope.DROP ∧
    dispatch (process_packet e p b pr st now).scope
      (process_packet e p b pr st now).packet
      (process_packet e p b pr st now).priority nwrite = [] := by
  have hmg := process_mgmt_beacon e p p.length b pr st.traceReceived now
    hread hb
  have hscope : (process_packet e p b pr st now).scope = Scope.DROP := by
    by_cases hv : is_valid_message e p
    · by_cases hd : 0 < t ∧ t < 60
      · cases b
        · rw [process_packet_dup e p false pr st now t f2 hv hr hd.1 hd.2,
            if_neg Bool.false_ne_true]
        · exact absurd ⟨rfl, hd⟩ hnd
      · rw [process_packet_mgmt e p b pr st now t f2 hv hr hd hm, hmg]
    · rw [process_packet_invalid e p b pr st now hv]
  refine ⟨by rw [hmg], hscope, ?_⟩
  rw [hscope]
  rfl

theorem c7_beacon_drop_w :
    (process_packet env0 beaconPkt2 false 9 ⟨[], 0⟩ 100).scope =
      Scope.DROP := by
  exact (c7_beacon_drop env0 beaconPkt2 false 9 ⟨[], 0⟩ 100 0
    [(beaconPkt2.drop HEADER_SKIP, 100)] 3 (by decide) (by decide)
    (by decide) (Or.inr (Or.inl (by decide))) (by decide)).2.1

/-- Claim C8 counterexample: a valid MGMT TRACE_REQ packet arriving on a
local pipe while its fingerprint is recorded as first seen 5 seconds ago
is handled by the duplicate path, not by the classifier: it is delivered
only to pipes 0 and 1 and last_unforwarded_trace stays 42 instead of
being reset to 0, contradicting the claim's local arm. -/
theorem c8_counterexample_local_duplicate_trace :
    message_type traceDupPkt = ALLNET_TYPE_MGMT ∧
    mgmt_byte env0 traceDupPkt = ALLNET_MGMT_TRACE_REQ ∧
    process_packet env0 traceDupPkt true 8
        ⟨[(traceDupPkt.drop HEADER_SKIP, 95)], 42⟩ 100 =
      ⟨Scope.LOCAL, traceDupPkt, 8,
       ⟨[(traceDupPkt.drop HEADER_SKIP, 95)], 42⟩⟩ ∧
    (42 : Nat) ≠ 0 ∧
    (2, traceDupPkt, 8) ∉ dispatch Scope.LOCAL traceDupPkt 8 3 := by
  decide

/-- Claim C8 as amended: for every valid MGMT TRACE_REQ packet that the
duplicate filter does not intercept (recorded age not in (0, 60)): if it
arrives on a local pipe, last_unforwarded_trace is reset to 0 and the
packet goes to every pipe at the submitter's priority; if it arrives on a
non-local pipe and the timestamp is 0 or at most 10 seconds old, it is
delivered only to pipes 0 and 1 and the timestamp is set to now; if it
arrives on a non-local pipe and the timestamp is nonzero and more than 10
seconds old, it goes to every pipe. -/
theorem c8_trace_req_handling (e : Env) (p : Packet) (pr : Nat)
    (st : AdState) (now t : Nat) (f2 : List (Packet × Nat)) (nwrite : Nat)
    (hv : is_valid_message e p)
    (hr : record_packet_time st.dupFilter now (p.drop HEADER_SKIP) = (t, f2))
    (hnd : ¬ (0 < t ∧ t < 60))
    (hm : message_type p = ALLNET_TYPE_MGMT)
    (hread : mgmt_readable e p)
    (hb : mgmt_byte e p = ALLNET_MGMT_TRACE_REQ) :
    (process_packet e p true pr st now = ⟨Scope.ALL, p, pr, ⟨f2, 0⟩⟩ ∧
      dispatch Scope.ALL p pr nwrite =
        (List.range nwrite).map (fun i => (i, p, pr))) ∧
    (st.traceReceived = 0 ∨ now - st.traceReceived ≤ 10 →
      process_packet e p false pr st now =
        ⟨Scope.LOCAL, p, EPSILON, ⟨f2, now⟩⟩ ∧
      dispatch Scope.LOCAL p 0 nwrite = [(0, p, 0), (1, p, 0)]) ∧
    (st.traceReceived ≠ 0 → 10 < now - st.traceReceived →
      process_packet e p false pr st now =
        ⟨Scope.ALL, p, EPSILON, ⟨f2, st.traceReceived⟩⟩) := by
  refine ⟨⟨?_, rfl⟩, fun h10 => ⟨?_, rfl⟩, fun h0 h10 => ?_⟩
  · rw [process_packet_mgmt e p true pr st now t f2 hv hr hnd hm,
      process_mgmt_trace_req_local e p p.length pr st.traceReceived now
        hread hb]
  · rw [process_packet_mgmt e p false pr st now t f2 hv hr hnd hm,
      process_mgmt_trace_req_remote e p p.length pr st.traceReceived now
        hread hb, if_neg (by omega)]
  · rw [process_packet_mgmt e p false pr st now t f2 hv hr hnd hm,
      process_mgmt_trace_req_remote e p p.length pr st.traceReceived now
        hread hb, if_pos ⟨h0, h10⟩]

theorem c8_trace_req_handling_w :
    process_packet env0 tracePkt2 false 6 ⟨[], 0⟩ 100 =
      ⟨Scope.LOCAL, tracePkt2, EPSILON,
       ⟨[(tracePkt2.drop HEADER_SKIP, 100)], 100⟩⟩ := by
  exact ((c8_trace_req_handling env0 tracePkt2 6 ⟨[], 0⟩ 100 0
    [(tracePkt2.drop HEADER_SKIP, 100)] 3 (by decide) (by decide)
    (by decide) (by decide) (by decide) (by decide)).2.1
    (Or.inl rfl)).1

/-- Claim C9: a MGMT packet whose size is smaller than the
transport-dependent header size plus the management sub-header size is
dropped by the classifier, and the mgmt_type byte is never read: the
result is a constant that does not depend on the packet's bytes beyond
the transport byte — any packet with the same transport byte yields the
same DROP. -/
theorem c9_short_mgmt_drop (e : Env) (p : Packet) (msize : Nat) (b : Bool)
    (pr tr now : Nat)
    (h : msize < ALLNET_AFTER_HEADER e.tExtra (transport p) msize +
      MGMT_HEADER_SIZE) :
    process_mgmt e p msize b pr tr now =
      (Scope.DROP, if b then pr else EPSILON, tr) ∧
    ∀ q : Packet, transport q = transport p →
      process_mgmt e q msize b pr tr now =
        (Scope.DROP, if b then pr else EPSILON, tr) := by
  constructor
  · unfold process_mgmt
    dsimp only
    rw [if_pos h]
  · intro q hq
    unfold process_mgmt
    dsimp only
    rw [hq, if_pos h]

theorem c9_short_mgmt_drop_w :
    process_mgmt env0 shortMgmt 24 false 5 3 50 = (Scope.DROP, EPSILON, 3) ∧
    message_type shortMgmt = ALLNET_TYPE_MGMT ∧ shortMgmt.length = 24 := by
  refine ⟨?_, by decide, by decide⟩
  have h := (c9_short_mgmt_drop env0 shortMgmt 24 false 5 3 50 (by decide)).1
  simpa using h

/-- Claim C10: after the classifier forwards a remote TRACE_REQ through
the 10-second fallback, last_unforwarded_trace is left unchanged (still
nonzero and more than 10 seconds old), so every subsequent remote
TRACE_REQ — at any later time — is also forwarded to every pipe rather
than suppressed, until a local TRACE_REQ resets the timestamp to 0. -/
theorem c10_trace_fallback_persists (e : Env) (q1 q2 q3 : Packet)
    (pr1 pr2 pr3 tr now now2 now3 : Nat)
    (h1 : tr ≠ 0) (h2 : 10 < now - tr) (hnow : now ≤ now2)
    (hread1 : mgmt_readable e q1)
    (hb1 : mgmt_byte e q1 = ALLNET_MGMT_TRACE_REQ)
    (hread2 : mgmt_readable e q2)
    (hb2 : mgmt_byte e q2 = ALLNET_MGMT_TRACE_REQ)
    (hread3 : mgmt_readable e q3)
    (hb3 : mgmt_byte e q3 = ALLNET_MGMT_TRACE_REQ) :
    process_mgmt e q1 q1.length false pr1 tr now = (Scope.ALL, EPSILON, tr) ∧
    process_mgmt e q2 q2.length false pr2 tr now2 =
      (Scope.ALL, EPSILON, tr) ∧
    process_mgmt e q3 q3.length true pr3 tr now3 = (Scope.ALL, pr3, 0) := by
  refine ⟨?_, ?_,
    process_mgmt_trace_req_local e q3 q3.length pr3 tr now3 hread3 hb3⟩
  · rw [process_mgmt_trace_req_remote e q1 q1.length pr1 tr now hread1 hb1,
      if_pos ⟨h1, h2⟩]
  · rw [process_mgmt_trace_req_remote e q2 q2.length pr2 tr now2 hread2 hb2,
      if_pos ⟨h1, by omega⟩]

theorem c10_trace_fallback_persists_w :
    process_mgmt env0 tracePkt3 tracePkt3.length false 4 50 100 =
      (Scope.ALL, EPSILON, 50) ∧
    process_mgmt env0 tracePkt4 tracePkt4.length false 4 50 200 =
      (Scope.ALL, EPSILON, 50) ∧
    process_mgmt env0 tracePkt5 tracePkt5.length true 4 50 7 =
      (Scope.ALL, 4, 0) := by
  exact c10_trace_fallback_persists env0 tracePkt3 tracePkt4 tracePkt5
    4 4 4 50 100 200 7 (by decide) (by decide) (by decide) (by decide)
    (by decide) (by decide) (by decide) (by decide) (by decide)

end Allnet
